import Mathlib

/-!
Verification of the listing service (main.go) and the browser client
filter (hotel-search/src/App.js): a shallow embedding of the two Go
handlers, of the SQL they issue against the store, and of the client
side filtering and loading logic, together with theorems settling the
specification claims.
-/

/-! ## Store rows

The relational store is external; a row is a tuple of columns, any of
which may be SQL NULL (modelled by Option). -/

/-- A row of the cities table: columns id, name, either possibly NULL. -/
structure CityRow where
  id : Option Int
  name : Option String
deriving Repr, DecidableEq

/-- A row of the hotels table: columns id, name, city (reference to
cities.id, possibly NULL), capacity, price. The price column is a SQL
numeric, an exact decimal, modelled as a rational. -/
structure HotelRow where
  id : Option Int
  name : Option String
  city : Option Int
  capacity : Option Int
  price : Option ℚ
deriving Repr, DecidableEq

/-! ## Go data types (main.go lines 13 to 32) -/

/-- The City struct of main.go. -/
structure City where
  id : Int
  name : String
deriving Repr, DecidableEq

/-- The Hotel struct of main.go. The Price field is declared float64 in
the Go source; here it carries the rational value held by that float64
variable, and the scan step that fills it is modelled by an explicit
conversion function (see Float64Scan below). -/
structure Hotel where
  id : Int
  name : String
  city_id : Int
  city_name : String
  capacity : Int
  price : ℚ
deriving Repr, DecidableEq

/-- The Response envelope struct of main.go. The Data field is a Go
interface value: nil (serialized as JSON null) is modelled by none, a
slice by some list. Error has omitempty, so the empty string means the
field is absent from the JSON. -/
structure Response (α : Type) where
  success : Bool
  data : Option (List α)
  count : Int
  error : String
deriving Repr, DecidableEq

/-- How encoding/json renders the Data field of the envelope: a nil
interface becomes JSON null, a slice becomes an array (here abstracted
to its length). -/
inductive JsonData where
  | null
  | array (n : Nat)
deriving Repr, DecidableEq

/-- Serialization of the Data field. -/
def dataJson {α : Type} : Option (List α) → JsonData
  | none => JsonData.null
  | some l => JsonData.array l.length

/-! ## SQL semantics

The two queries are executed by the external store; their semantics
(ORDER BY, LEFT JOIN, COALESCE) is modelled here because the claims
refer to it. ORDER BY name ascending places NULL names last, the store
default for ascending order. -/

/-- Lexicographic comparison of character lists, the model of the
store collation for ORDER BY: ascending by code point. -/
def charListLe : List Char → List Char → Bool
  | [], _ => true
  | _ :: _, [] => false
  | a :: as, b :: bs =>
    if a = b then charListLe as bs else decide (a < b)

/-- The collation order on names. -/
def strLe (x y : String) : Bool := charListLe x.data y.data

/-- Comparison used by ORDER BY name: ascending on non NULL names,
NULLs last. -/
def optNameLe : Option String → Option String → Bool
  | some x, some y => strLe x y
  | some _, none => true
  | none, some _ => false
  | none, none => true

/-- Row comparison for SELECT id, name FROM cities ORDER BY name. -/
def cityRowLe (a b : CityRow) : Prop := optNameLe a.name b.name = true

instance : DecidableRel cityRowLe :=
  fun a b => inferInstanceAs (Decidable (optNameLe a.name b.name = true))

/-- The cities query of getAllCities (main.go line 53):
SELECT id, name FROM cities ORDER BY name. -/
def citiesQuery (cities : List CityRow) : List CityRow :=
  List.insertionSort cityRowLe cities

/-- A result row of the hotels query. The COALESCE column cname is
never NULL, hence a plain String. -/
structure JoinedRow where
  id : Option Int
  name : Option String
  city : Option Int
  cname : String
  capacity : Option Int
  price : Option ℚ
deriving Repr, DecidableEq

/-- The join condition ON h.city = c.id: a SQL comparison with a NULL
operand is not true. -/
def onCityEq (h : HotelRow) (c : CityRow) : Bool :=
  match h.city, c.id with
  | some hc, some ci => hc == ci
  | _, _ => false

/-- Builds one result row of the hotels query from a hotel row and the
resolved COALESCE(c.name, two quotes) value. -/
def joinedOf (h : HotelRow) (cname : String) : JoinedRow :=
  ⟨h.id, h.name, h.city, cname, h.capacity, h.price⟩

/-- LEFT JOIN cities c ON h.city = c.id, with the select list
h.id, h.name, h.city, COALESCE(c.name, empty), h.capacity, h.price:
a hotel row with no matching city yields a single row whose cname is
the empty string; otherwise one row per matching city row, cname being
that city name (empty when the city name itself is NULL). -/
def leftJoinCities (cities : List CityRow) (h : HotelRow) : List JoinedRow :=
  match cities.filter (onCityEq h) with
  | [] => [joinedOf h ""]
  | ms => ms.map fun c => joinedOf h (c.name.getD "")

/-- Row comparison for ORDER BY h.name. -/
def joinedRowLe (a b : JoinedRow) : Prop := optNameLe a.name b.name = true

instance : DecidableRel joinedRowLe :=
  fun a b => inferInstanceAs (Decidable (optNameLe a.name b.name = true))

/-- The hotels query of getAllHotels (main.go lines 81 to 86). -/
def hotelsQuery (cities : List CityRow) (hotels : List HotelRow) : List JoinedRow :=
  List.insertionSort joinedRowLe ((hotels.map (leftJoinCities cities)).flatten)

/-! ## Row scanning

rows.Scan in database/sql fails on a row when a NULL column is scanned
into a Go int, string or float64; the handlers log and skip such a
row. -/

/-- rows.Scan of a cities row into the City struct (main.go line 66):
fails when either column is NULL. -/
def scanCity (r : CityRow) : Option City :=
  match r.id, r.name with
  | some i, some n => some ⟨i, n⟩
  | _, _ => none

/-- The set of rational values a Go float64 variable can hold: dyadic
rationals with a mantissa of at most 53 bits. This is a superset of the
finite binary64 values (the exponent is unbounded here), which only
strengthens impossibility results about it. -/
def Float64Repr (q : ℚ) : Prop :=
  ∃ (m e : ℤ), m.natAbs ≤ 2 ^ 53 ∧ q = (m : ℚ) * (2 : ℚ) ^ e

/-- A conversion of a store numeric into a float64 variable: whatever
rounding the driver performs, the result is a float64 value. -/
def Float64Scan (f64 : ℚ → ℚ) : Prop :=
  ∀ q, Float64Repr (f64 q)

/-- rows.Scan of a hotels query row into the Hotel struct (main.go
line 101): fails when a NULL is scanned into an int or float64 column;
in particular a hotel row whose city reference is NULL never decodes.
The price column passes through the float64 conversion f64. -/
def scanHotel (f64 : ℚ → ℚ) (r : JoinedRow) : Option Hotel :=
  match r.id, r.name, r.city, r.capacity, r.price with
  | some i, some n, some c, some cap, some p => some ⟨i, n, c, r.cname, cap, f64 p⟩
  | _, _, _, _, _ => none

/-! ## Handlers (main.go lines 52 to 113)

A handler is given the outcome of db.Query: either an error (store
unreachable, query failure) or the table contents the SQL ran over.
It returns the HTTP status together with the envelope. -/

/-- The getAllCities handler. On query error: status 500, envelope with
success false, nil Data, zero Count, the error message. Otherwise the
rows are scanned one by one, a failing row is skipped, and the envelope
carries the decoded rows with success true and status 200. -/
def getAllCities (q : Except String (List CityRow)) : Nat × Response City :=
  match q with
  | .error e => (500, ⟨false, none, 0, e⟩)
  | .ok tbl =>
    let cities := (citiesQuery tbl).filterMap scanCity
    (200, ⟨true, some cities, (cities.length : Int), ""⟩)

/-- The getAllHotels handler, same shape as getAllCities; f64 is the
float64 conversion applied to the price column by rows.Scan. -/
def getAllHotels (f64 : ℚ → ℚ) (q : Except String (List CityRow × List HotelRow)) :
    Nat × Response Hotel :=
  match q with
  | .error e => (500, ⟨false, none, 0, e⟩)
  | .ok tbls =>
    let hotels := (hotelsQuery tbls.1 tbls.2).filterMap (scanHotel f64)
    (200, ⟨true, some hotels, (hotels.length : Int), ""⟩)

/-! ## Browser client (hotel-search/src/App.js)

The records the client holds are the City and Hotel JSON objects the
service serialized. JS property access on such an object yields a
number, a string, or undefined for an absent key; the printing of a JS
number (the shortest round tripping decimal) is external JS runtime
behaviour and is passed in as the parameter numStr throughout. -/

/-- A JS value as it occurs in the filter: a field value of a record. -/
inductive JSVal where
  | undefined
  | num (q : ℚ)
  | str (s : String)
deriving Repr, DecidableEq

/-- JS falsiness restricted to the values above: undefined, the number
zero and the empty string are falsy. -/
def jsFalsy : JSVal → Bool
  | .undefined => true
  | .num q => q == 0
  | .str s => s == ""

/-- The JS String(v) coercion. -/
def jsString (numStr : ℚ → String) : JSVal → String
  | .undefined => "undefined"
  | .num q => numStr q
  | .str s => s

/-- The coercion the filter applies to a field value: String(v || two
quotes), that is, the empty string for a falsy value and the String
coercion otherwise (App.js lines 50 and 60 to 63). -/
def orElseCoerce (numStr : ℚ → String) (v : JSVal) : String :=
  if jsFalsy v then "" else jsString numStr v

/-- JS property access city[field] on a serialized City object. -/
def cityField (c : City) (f : String) : JSVal :=
  if f == "id" then .num (c.id : ℚ)
  else if f == "name" then .str c.name
  else .undefined

/-- JS property access hotel[field] on a serialized Hotel object. -/
def hotelField (h : Hotel) (f : String) : JSVal :=
  if f == "id" then .num (h.id : ℚ)
  else if f == "name" then .str h.name
  else if f == "city_id" then .num (h.city_id : ℚ)
  else if f == "city_name" then .str h.city_name
  else if f == "capacity" then .num (h.capacity : ℚ)
  else if f == "price" then .num h.price
  else .undefined

/-- JS String.prototype.includes: contiguous substring containment. -/
def jsIncludes (s sub : String) : Bool :=
  decide (sub.data <:+: s.data)

/-- JS String.prototype.trim: strips leading and trailing
whitespace. -/
def jsTrim (s : String) : String :=
  String.mk (((s.data.dropWhile Char.isWhitespace).reverse.dropWhile Char.isWhitespace).reverse)

/-- JS String.prototype.toLowerCase, on the basic latin letters the
data of this system uses. -/
def jsToLower (s : String) : String :=
  String.mk (s.data.map Char.toLower)

/-- The searchParams state of the component. -/
structure SearchParams where
  table : String
  field : String
  query : String
deriving Repr, DecidableEq

/-- The filterData callback (App.js lines 35 to 69): with an empty or
whitespace only query it yields the full snapshot of the selected
table; otherwise it filters the selected snapshot, comparing the
lower cased coerced field value against the lower cased query, the
logical hotel field city being read from city_name. -/
def filterData (numStr : ℚ → String) (cities : List City) (hotels : List Hotel)
    (sp : SearchParams) : List City ⊕ List Hotel :=
  if jsTrim sp.query == "" then
    if sp.table == "cities" then .inl cities else .inr hotels
  else
    let searchQuery := jsToLower sp.query
    if sp.table == "cities" then
      .inl (cities.filter fun city =>
        jsIncludes (jsToLower (orElseCoerce numStr (cityField city sp.field))) searchQuery)
    else
      .inr (hotels.filter fun hotel =>
        let value :=
          if sp.field == "city" then orElseCoerce numStr (.str hotel.city_name)
          else orElseCoerce numStr (hotelField hotel sp.field)
        jsIncludes (jsToLower value) searchQuery)

/-- The component state touched by loadAllData. -/
structure ClientState where
  cities : List City
  hotels : List Hotel
  error : String
  loading : Bool
deriving Repr, DecidableEq

/-- The state at mount: empty snapshots, no error, loading. -/
def initState : ClientState := ⟨[], [], "", true⟩

/-- The loadAllData function (App.js lines 91 to 117). Each argument is
the outcome of one fetch plus JSON parse: an exception message or the
decoded envelope. Only when both envelopes report success are the
snapshots replaced; otherwise the error message is set and the
snapshots keep their previous value. When both fetches fail, which of
the two messages the rejected Promise.all surfaces depends on timing;
the cities one is chosen here, and no claim depends on the choice. -/
def loadAllData (st : ClientState) (citiesRes : Except String (Response City))
    (hotelsRes : Except String (Response Hotel)) : ClientState :=
  match citiesRes, hotelsRes with
  | .ok citiesData, .ok hotelsData =>
    if citiesData.success && hotelsData.success then
      ⟨citiesData.data.getD [], hotelsData.data.getD [], "", false⟩
    else
      ⟨st.cities, st.hotels, "Failed to load data", false⟩
  | .error e, _ => ⟨st.cities, st.hotels, "Error connecting to server: " ++ e, false⟩
  | _, .error e => ⟨st.cities, st.hotels, "Error connecting to server: " ++ e, false⟩

/-! ## Spec side definitions

These follow the words of the specification, to be compared with the
definitions above; they are deliberately written independently. -/

/-- Spec wording for C3: the field value coerced to text, with absent
or null becoming the empty string. -/
def specText (numStr : ℚ → String) : JSVal → String
  | .undefined => ""
  | .num q => numStr q
  | .str s => s

/-- Spec amended wording: the field value coerced to text, with every
falsy value (absent or null, the number zero, the empty string)
becoming the empty string. -/
def specTextAmended (numStr : ℚ → String) : JSVal → String
  | .undefined => ""
  | .num q => if q = 0 then "" else numStr q
  | .str s => s

/-- Spec wording: the hotel field named by f, the logical field city
mapping to city_name. -/
def specHotelField (h : Hotel) (f : String) : JSVal :=
  if f == "city" then .str h.city_name else hotelField h f

/-- Spec wording: the coerced text contains the lower cased query as a
case insensitive substring. -/
def specKeeps (text : String) (query : String) : Prop :=
  jsIncludes (jsToLower text) (jsToLower query) = true

/-- The client filter as the claim C3 words it. -/
def specFilter (numStr : ℚ → String) (cities : List City) (hotels : List Hotel)
    (sp : SearchParams) : List City ⊕ List Hotel :=
  if sp.table == "cities" then
    .inl (cities.filter fun c =>
      jsIncludes (jsToLower (specText numStr (cityField c sp.field))) (jsToLower sp.query))
  else
    .inr (hotels.filter fun h =>
      jsIncludes (jsToLower (specText numStr (specHotelField h sp.field))) (jsToLower sp.query))

/-- The client filter as amended: falsy field values coerce to the
empty string. -/
def specFilterAmended (numStr : ℚ → String) (cities : List City) (hotels : List Hotel)
    (sp : SearchParams) : List City ⊕ List Hotel :=
  if sp.table == "cities" then
    .inl (cities.filter fun c =>
      jsIncludes (jsToLower (specTextAmended numStr (cityField c sp.field))) (jsToLower sp.query))
  else
    .inr (hotels.filter fun h =>
      jsIncludes (jsToLower (specTextAmended numStr (specHotelField h sp.field))) (jsToLower sp.query))

/-- The claim C3 as stated, over the embedding: for every non
whitespace query the code filter keeps exactly what the spec predicate
keeps. -/
def C3claim : Prop :=
  ∀ (numStr : ℚ → String) (cities : List City) (hotels : List Hotel) (sp : SearchParams),
    jsTrim sp.query ≠ "" →
    filterData numStr cities hotels sp = specFilter numStr cities hotels sp

/-- Spec wording for C8: the decoded rows, in order, each failing row
skipped and processing continuing. -/
def decodedCities (rs : List CityRow) : List City :=
  rs.foldr (fun r acc =>
    match scanCity r with
    | some c => c :: acc
    | none => acc) []

/-- Spec wording for C8, hotels side. -/
def decodedHotels (f64 : ℚ → ℚ) (rs : List JoinedRow) : List Hotel :=
  rs.foldr (fun r acc =>
    match scanHotel f64 r with
    | some h => h :: acc
    | none => acc) []

/-- The claim C2 as stated, over the embedding: whatever float64
conversion the driver applies, the price stored in the Hotel struct by
a successful scan equals the store price of the row exactly. -/
def C2claim : Prop :=
  ∀ (f64 : ℚ → ℚ), Float64Scan f64 →
    ∀ (r : JoinedRow) (h : Hotel), scanHotel f64 r = some h → r.price = some h.price

/-! ## Theorems -/

/-- C1: in every envelope returned by List Cities and List Hotels the
count field equals the length of the data array; the failure envelope
carries no array (nil data) and its count is zero, so reading nil as
the empty array the equality holds for every envelope. -/
theorem C1_count_eq_data_length :
    ∀ (q : Except String (List CityRow)) (f64 : ℚ → ℚ)
      (qh : Except String (List CityRow × List HotelRow)),
      (getAllCities q).2.count = (((getAllCities q).2.data.getD []).length : Int) ∧
      (getAllHotels f64 qh).2.count = (((getAllHotels f64 qh).2.data.getD []).length : Int) := by
  intro q f64 qh
  constructor
  · cases q <;> simp [getAllCities]
  · cases qh <;> simp [getAllHotels]

/-- C7: a successful query over an empty table yields success true,
data serialized as an empty array (never null) and count zero, with
status 200, for both endpoints. -/
theorem C7_empty_table_empty_array :
    ∀ (f64 : ℚ → ℚ) (ctbl : List CityRow),
      (getAllCities (.ok [])).1 = 200 ∧
      (getAllCities (.ok [])).2.success = true ∧
      (getAllCities (.ok [])).2.data = some [] ∧
      dataJson (getAllCities (.ok [])).2.data = JsonData.array 0 ∧
      (getAllCities (.ok [])).2.count = 0 ∧
      (getAllHotels f64 (.ok (ctbl, []))).1 = 200 ∧
      (getAllHotels f64 (.ok (ctbl, []))).2.success = true ∧
      (getAllHotels f64 (.ok (ctbl, []))).2.data = some [] ∧
      dataJson (getAllHotels f64 (.ok (ctbl, []))).2.data = JsonData.array 0 ∧
      (getAllHotels f64 (.ok (ctbl, []))).2.count = 0 := by
  intro f64 ctbl
  exact ⟨rfl, rfl, rfl, rfl, rfl, rfl, rfl, rfl, rfl, rfl⟩

/-- C10: a whole query failure on either endpoint yields an envelope
with success false carrying the store error message, a data field
serialized as JSON null (not an array), count zero, and HTTP status
500. -/
theorem C10_failure_envelope :
    ∀ (e : String) (f64 : ℚ → ℚ),
      (getAllCities (.error e)).1 = 500 ∧
      (getAllCities (.error e)).2.success = false ∧
      (getAllCities (.error e)).2.error = e ∧
      (getAllCities (.error e)).2.count = 0 ∧
      dataJson (getAllCities (.error e)).2.data = JsonData.null ∧
      (getAllHotels f64 (.error e)).1 = 500 ∧
      (getAllHotels f64 (.error e)).2.success = false ∧
      (getAllHotels f64 (.error e)).2.error = e ∧
      (getAllHotels f64 (.error e)).2.count = 0 ∧
      dataJson (getAllHotels f64 (.error e)).2.data = JsonData.null := by
  intro e f64
  exact ⟨rfl, rfl, rfl, rfl, rfl, rfl, rfl, rfl, rfl, rfl⟩

/-- C4: with an empty or whitespace only query the client filter
returns the full snapshot of the selected table unchanged, in its
original order. -/
theorem C4_empty_query_identity :
    ∀ (numStr : ℚ → String) (cities : List City) (hotels : List Hotel) (sp : SearchParams),
      jsTrim sp.query = "" →
      filterData numStr cities hotels sp =
        (if sp.table == "cities" then .inl cities else .inr hotels) := by
  intro numStr cities hotels sp h
  simp [filterData, h]

/-- Witness for C4 at a concrete whitespace only query. -/
theorem C4_empty_query_identity_witness :
    jsTrim "  " = "" ∧
    filterData (fun _ => "") [⟨1, "Paris"⟩] [⟨2, "Inn", 1, "Paris", 5, 3⟩]
        ⟨"hotels", "name", "  "⟩ =
      .inr [⟨2, "Inn", 1, "Paris", 5, 3⟩] :=
  ⟨by decide, C4_empty_query_identity (fun _ => "") [⟨1, "Paris"⟩]
    [⟨2, "Inn", 1, "Paris", 5, 3⟩] ⟨"hotels", "name", "  "⟩ (by decide)⟩

/-- C9: in a load cycle in which the two fetches do not both return a
success envelope (a network or parse failure on either, or a non
success envelope from either, including exactly one succeeding), the
client sets a single error message and both snapshots stay empty. -/
theorem C9_no_partial_display :
    ∀ (citiesRes : Except String (Response City)) (hotelsRes : Except String (Response Hotel)),
      (¬ ∃ (cd : Response City) (hd : Response Hotel),
          citiesRes = .ok cd ∧ hotelsRes = .ok hd ∧
          cd.success = true ∧ hd.success = true) →
      (loadAllData initState citiesRes hotelsRes).error ≠ "" ∧
      (loadAllData initState citiesRes hotelsRes).cities = [] ∧
      (loadAllData initState citiesRes hotelsRes).hotels = [] := by
  intro cr hr hfail
  have hne : ∀ (e : String), "Error connecting to server: " ++ e ≠ "" := by
    intro e h
    have hlen : ("Error connecting to server: " ++ e).length = 0 := by rw [h]; rfl
    rw [String.length_append] at hlen
    have hpre : ("Error connecting to server: " : String).length = 28 := rfl
    omega
  cases cr with
  | error e => cases hr <;> exact ⟨hne e, rfl, rfl⟩
  | ok cd =>
    cases hr with
    | error e => exact ⟨hne e, rfl, rfl⟩
    | ok hd =>
      have hns : (cd.success && hd.success) = false := by
        cases hcs : cd.success with
        | false => rfl
        | true =>
          cases hhs : hd.success with
          | false => rfl
          | true => exact absurd ⟨cd, hd, rfl, rfl, hcs, hhs⟩ hfail
      have hred : loadAllData initState (.ok cd) (.ok hd) =
          ⟨initState.cities, initState.hotels, "Failed to load data", false⟩ := by
        simp only [loadAllData, hns, Bool.false_eq_true, if_false]
      rw [hred]
      refine ⟨?_, rfl, rfl⟩
      intro h
      exact absurd h (by decide)

/-- Witness for C9: the cities fetch fails while the hotels fetch
succeeds, and no partial data is displayed. -/
theorem C9_no_partial_display_witness :
    (¬ ∃ (cd : Response City) (hd : Response Hotel),
        (Except.error "boom" : Except String (Response City)) = .ok cd ∧
        (Except.ok ⟨true, some [], 0, ""⟩ : Except String (Response Hotel)) = .ok hd ∧
        cd.success = true ∧ hd.success = true) ∧
    (loadAllData initState (.error "boom") (.ok ⟨true, some [], 0, ""⟩)).error ≠ "" ∧
    (loadAllData initState (.error "boom") (.ok ⟨true, some [], 0, ""⟩)).cities = [] ∧
    (loadAllData initState (.error "boom") (.ok ⟨true, some [], 0, ""⟩)).hotels = [] := by
  have hfail : ¬ ∃ (cd : Response City) (hd : Response Hotel),
      (Except.error "boom" : Except String (Response City)) = .ok cd ∧
      (Except.ok ⟨true, some [], 0, ""⟩ : Except String (Response Hotel)) = .ok hd ∧
      cd.success = true ∧ hd.success = true := by
    rintro ⟨cd, hd, hcd, -⟩
    exact absurd hcd (by simp)
  exact ⟨hfail, C9_no_partial_display (.error "boom") (.ok ⟨true, some [], 0, ""⟩) hfail⟩

/-! ## Order lemmas for the sort -/

lemma charListLe_trans :
    ∀ x y z, charListLe x y = true → charListLe y z = true → charListLe x z = true := by
  intro x
  induction x with
  | nil => intro y z h1 h2; rfl
  | cons a as ih =>
    intro y z h1 h2
    cases y with
    | nil => exact absurd h1 (by simp [charListLe])
    | cons b bs =>
      cases z with
      | nil => exact absurd h2 (by simp [charListLe])
      | cons c cs =>
        simp only [charListLe] at h1 h2 ⊢
        by_cases hab : a = b
        · subst hab
          rw [if_pos rfl] at h1
          by_cases hac : a = c
          · subst hac
            rw [if_pos rfl] at h2 ⊢
            exact ih bs cs h1 h2
          · rw [if_neg hac] at h2 ⊢
            exact h2
        · rw [if_neg hab] at h1
          have hab' : a < b := of_decide_eq_true h1
          by_cases hbc : b = c
          · subst hbc
            rw [if_neg hab]
            exact h1
          · rw [if_neg hbc] at h2
            have hbc' : b < c := of_decide_eq_true h2
            have hac' : a < c := lt_trans hab' hbc'
            rw [if_neg (ne_of_lt hac')]
            exact decide_eq_true hac'

lemma charListLe_total :
    ∀ x y, charListLe x y = true ∨ charListLe y x = true := by
  intro x
  induction x with
  | nil => intro y; exact .inl rfl
  | cons a as ih =>
    intro y
    cases y with
    | nil => exact .inr rfl
    | cons b bs =>
      simp only [charListLe]
      by_cases hab : a = b
      · subst hab
        rw [if_pos rfl, if_pos rfl]
        exact ih bs
      · have hba : b ≠ a := fun h => hab h.symm
        rw [if_neg hab, if_neg hba]
        rcases lt_or_gt_of_ne hab with h | h
        · exact .inl (decide_eq_true h)
        · exact .inr (decide_eq_true h)

lemma optNameLe_trans :
    ∀ a b c, optNameLe a b = true → optNameLe b c = true → optNameLe a c = true := by
  intro a b c h1 h2
  rcases a with _ | x <;> rcases b with _ | y <;> rcases c with _ | z <;>
    simp_all [optNameLe, strLe]
  exact charListLe_trans _ _ _ h1 h2

lemma optNameLe_total :
    ∀ a b, optNameLe a b = true ∨ optNameLe b a = true := by
  intro a b
  rcases a with _ | x <;> rcases b with _ | y <;> simp only [optNameLe, strLe] <;>
    first
      | exact .inl trivial
      | exact .inr trivial
      | exact charListLe_total _ _

instance : IsTrans CityRow cityRowLe :=
  ⟨fun a b c => optNameLe_trans a.name b.name c.name⟩

instance : IsTotal CityRow cityRowLe :=
  ⟨fun a b => optNameLe_total a.name b.name⟩

instance : IsTrans JoinedRow joinedRowLe :=
  ⟨fun a b c => optNameLe_trans a.name b.name c.name⟩

instance : IsTotal JoinedRow joinedRowLe :=
  ⟨fun a b => optNameLe_total a.name b.name⟩

/-! ## Scan lemmas -/

lemma scanCity_some {r : CityRow} {c : City} (h : scanCity r = some c) :
    r.id = some c.id ∧ r.name = some c.name := by
  rcases r with ⟨ri, rn⟩
  cases ri with
  | none => simp [scanCity] at h
  | some i =>
    cases rn with
    | none => simp [scanCity] at h
    | some n =>
      simp only [scanCity, Option.some.injEq] at h
      subst h
      exact ⟨rfl, rfl⟩

lemma scanHotel_some {f64 : ℚ → ℚ} {r : JoinedRow} {h : Hotel}
    (hs : scanHotel f64 r = some h) :
    r.city = some h.city_id ∧ r.cname = h.city_name ∧
      ∃ p, r.price = some p ∧ h.price = f64 p := by
  rcases r with ⟨ri, rn, rc, rcn, rcap, rp⟩
  cases ri <;> cases rn <;> cases rc <;> cases rcap <;> cases rp <;>
    simp only [scanHotel, Option.some.injEq, reduceCtorEq] at hs
  subst hs
  exact ⟨rfl, rfl, _, rfl, rfl⟩

/-- C5: for every input data set the List Cities data array is sorted
by city name ascending (in the modelled collation strLe). -/
theorem C5_cities_sorted_by_name :
    ∀ (tbl : List CityRow),
      ((getAllCities (.ok tbl)).2.data.getD []).Pairwise
        (fun a b : City => strLe a.name b.name = true) := by
  intro tbl
  have hsort : (citiesQuery tbl).Pairwise cityRowLe :=
    List.sorted_insertionSort cityRowLe tbl
  show ((citiesQuery tbl).filterMap scanCity).Pairwise _
  refine List.Pairwise.filterMap scanCity ?_ hsort
  intro a a' hle b hb b' hb'
  have ha := scanCity_some (Option.mem_def.mp hb)
  have ha' := scanCity_some (Option.mem_def.mp hb')
  have hle' : optNameLe a.name a'.name = true := hle
  rw [ha.2, ha'.2] at hle'
  simpa [optNameLe] using hle'

/-! ## C8: row skip semantics -/

lemma decodedCities_eq (rs : List CityRow) :
    rs.filterMap scanCity = decodedCities rs := by
  induction rs with
  | nil => rfl
  | cons r rs ih =>
    simp only [decodedCities, List.foldr_cons] at ih ⊢
    rw [List.filterMap_cons]
    cases h : scanCity r <;> simp [h, ih]

lemma decodedHotels_eq (f64 : ℚ → ℚ) (rs : List JoinedRow) :
    rs.filterMap (scanHotel f64) = decodedHotels f64 rs := by
  induction rs with
  | nil => rfl
  | cons r rs ih =>
    simp only [decodedHotels, List.foldr_cons] at ih ⊢
    rw [List.filterMap_cons]
    cases h : scanHotel f64 r <;> simp [h, ih]

/-- C8: when some rows of a query result fail to decode, each failing
row is skipped and processing continues: both endpoints still return a
success envelope (status 200) whose data is exactly the successfully
decoded rows in their query order. -/
theorem C8_bad_rows_skipped :
    ∀ (f64 : ℚ → ℚ) (tbl ctbl : List CityRow) (htbl : List HotelRow),
      (∃ r ∈ citiesQuery tbl, scanCity r = none) →
      (∃ r ∈ hotelsQuery ctbl htbl, scanHotel f64 r = none) →
      (getAllCities (.ok tbl)).1 = 200 ∧
      (getAllCities (.ok tbl)).2.success = true ∧
      (getAllCities (.ok tbl)).2.data = some (decodedCities (citiesQuery tbl)) ∧
      (getAllHotels f64 (.ok (ctbl, htbl))).1 = 200 ∧
      (getAllHotels f64 (.ok (ctbl, htbl))).2.success = true ∧
      (getAllHotels f64 (.ok (ctbl, htbl))).2.data =
        some (decodedHotels f64 (hotelsQuery ctbl htbl)) := by
  intro f64 tbl ctbl htbl hc hh
  refine ⟨rfl, rfl, ?_, rfl, rfl, ?_⟩
  · show some ((citiesQuery tbl).filterMap scanCity) = _
    rw [decodedCities_eq]
  · show some ((hotelsQuery ctbl htbl).filterMap (scanHotel f64)) = _
    rw [decodedHotels_eq]

/-- Witness for C8: a cities table with a NULL name row and a hotels
table whose single row has a NULL city reference; both rows fail to
decode and are skipped while the rest are returned. -/
theorem C8_bad_rows_skipped_witness :
    (∃ r ∈ citiesQuery [⟨some 1, none⟩, ⟨some 2, some "Lyon"⟩], scanCity r = none) ∧
    (∃ r ∈ hotelsQuery [] [⟨some 3, some "Inn", none, some 5, some 4⟩],
      scanHotel (fun q => q) r = none) ∧
    (getAllCities (.ok [⟨some 1, none⟩, ⟨some 2, some "Lyon"⟩])).2.data =
      some (decodedCities (citiesQuery [⟨some 1, none⟩, ⟨some 2, some "Lyon"⟩])) ∧
    (getAllHotels (fun q => q) (.ok ([], [⟨some 3, some "Inn", none, some 5, some 4⟩]))).2.data =
      some (decodedHotels (fun q => q)
        (hotelsQuery [] [⟨some 3, some "Inn", none, some 5, some 4⟩])) := by
  have h1 : ∃ r ∈ citiesQuery [⟨some 1, none⟩, ⟨some 2, some "Lyon"⟩], scanCity r = none := by
    decide
  have h2 : ∃ r ∈ hotelsQuery [] [⟨some 3, some "Inn", none, some 5, some 4⟩],
      scanHotel (fun q => q) r = none := by
    refine ⟨⟨some 3, some "Inn", none, "", some 5, some 4⟩, by decide, rfl⟩
  have hmain := C8_bad_rows_skipped (fun q => q) [⟨some 1, none⟩, ⟨some 2, some "Lyon"⟩]
    [] [⟨some 3, some "Inn", none, some 5, some 4⟩] h1 h2
  exact ⟨h1, h2, hmain.2.2.1, hmain.2.2.2.2.2⟩

/-! ## C6: orphaned references -/

lemma mem_hotelsQuery {ctbl : List CityRow} {htbl : List HotelRow} {r : JoinedRow}
    (hm : r ∈ hotelsQuery ctbl htbl) :
    ∃ hr ∈ htbl, r ∈ leftJoinCities ctbl hr := by
  unfold hotelsQuery at hm
  rw [(List.perm_insertionSort joinedRowLe _).mem_iff] at hm
  rw [List.mem_flatten] at hm
  obtain ⟨l, hl, hrl⟩ := hm
  rw [List.mem_map] at hl
  obtain ⟨hr, hhr, hleq⟩ := hl
  exact ⟨hr, hhr, hleq ▸ hrl⟩

lemma mem_leftJoinCities {ctbl : List CityRow} {hr : HotelRow} {r : JoinedRow}
    (hm : r ∈ leftJoinCities ctbl hr) :
    r = joinedOf hr "" ∨
      ∃ c ∈ ctbl, onCityEq hr c = true ∧ r = joinedOf hr (c.name.getD "") := by
  unfold leftJoinCities at hm
  cases hms : ctbl.filter (onCityEq hr) with
  | nil =>
    rw [hms] at hm
    simp only [List.mem_singleton] at hm
    exact .inl hm
  | cons c cs =>
    rw [hms] at hm
    simp only [List.mem_map] at hm
    obtain ⟨a, ha, hco⟩ := hm
    have hamem : a ∈ ctbl.filter (onCityEq hr) := by rw [hms]; exact ha
    have hsplit := List.mem_filter.mp hamem
    exact .inr ⟨a, hsplit.1, hsplit.2, hco.symm⟩

/-- C6: in every List Hotels response, a hotel whose city reference
matches no city row of the store has an empty city_name. A hotel row
whose city reference is NULL never reaches the response at all, since
scanning NULL into the int CityID field fails and the row is skipped,
so the claim concerns the orphaned (non NULL, unmatched) case. -/
theorem C6_orphan_empty_city_name :
    ∀ (f64 : ℚ → ℚ) (ctbl : List CityRow) (htbl : List HotelRow) (h : Hotel),
      h ∈ ((getAllHotels f64 (.ok (ctbl, htbl))).2.data.getD []) →
      (∀ c ∈ ctbl, c.id ≠ some h.city_id) →
      h.city_name = "" := by
  intro f64 ctbl htbl h hmem horph
  have hmem' : h ∈ (hotelsQuery ctbl htbl).filterMap (scanHotel f64) := hmem
  rw [List.mem_filterMap] at hmem'
  obtain ⟨r, hrq, hscan⟩ := hmem'
  obtain ⟨hrow, hhrow, hrin⟩ := mem_hotelsQuery hrq
  obtain ⟨hcity, hcname, -⟩ := scanHotel_some hscan
  rcases mem_leftJoinCities hrin with hempty | ⟨c, hcm, hceq, hcjoin⟩
  · rw [hempty] at hcname
    exact hcname.symm
  · exfalso
    have hc2 : hrow.city = some h.city_id := by
      rw [hcjoin] at hcity
      exact hcity
    have hceq' : onCityEq hrow c = true := hceq
    unfold onCityEq at hceq'
    rw [hc2] at hceq'
    cases hcid : c.id with
    | none => rw [hcid] at hceq'; simp at hceq'
    | some ci =>
      rw [hcid] at hceq'
      simp only [beq_iff_eq] at hceq'
      exact absurd (hcid.trans (by rw [← hceq'])) (horph c hcm)

/-- Witness for C6: one hotel whose city reference 7 matches nothing
in an empty cities table; its city_name in the response is empty. -/
theorem C6_orphan_empty_city_name_witness :
    (⟨3, "Inn", 7, "", 5, 4⟩ : Hotel) ∈
      ((getAllHotels (fun q => q)
        (.ok ([], [⟨some 3, some "Inn", some 7, some 5, some 4⟩]))).2.data.getD []) ∧
    (∀ c ∈ ([] : List CityRow), c.id ≠ some (7 : Int)) ∧
    (⟨3, "Inn", 7, "", 5, 4⟩ : Hotel).city_name = "" := by
  have hmem : (⟨3, "Inn", 7, "", 5, 4⟩ : Hotel) ∈
      ((getAllHotels (fun q => q)
        (.ok ([], [⟨some 3, some "Inn", some 7, some 5, some 4⟩]))).2.data.getD []) := by
    decide
  have horph : ∀ c ∈ ([] : List CityRow), c.id ≠ some (7 : Int) := by
    intro c hc
    exact absurd hc (List.not_mem_nil c)
  exact ⟨hmem, horph,
    C6_orphan_empty_city_name (fun q => q) [] [⟨some 3, some "Inn", some 7, some 5, some 4⟩]
      ⟨3, "Inn", 7, "", 5, 4⟩ hmem horph⟩

/-! ## C2: price exactness -/

lemma not_float64Repr_tenth : ¬ Float64Repr (1 / 10 : ℚ) := by
  rintro ⟨m, e, hm, heq⟩
  rcases le_or_lt 0 e with he | he
  · obtain ⟨k, hk⟩ : ∃ k : ℕ, e = (k : ℤ) := ⟨e.toNat, (Int.toNat_of_nonneg he).symm⟩
    rw [hk, zpow_natCast] at heq
    have h1 : (10 : ℚ) * ((m : ℚ) * (2 : ℚ) ^ k) = 1 := by
      rw [← heq]; norm_num
    have h2 : (10 : ℤ) * (m * 2 ^ k) = 1 := by exact_mod_cast h1
    have h3 : ∀ n : ℤ, 10 * n = 1 → False := by intro n hn; omega
    exact h3 _ h2
  · obtain ⟨k, hk⟩ : ∃ k : ℕ, e = -(k : ℤ) := by
      refine ⟨(-e).toNat, ?_⟩
      have : ((-e).toNat : ℤ) = -e := Int.toNat_of_nonneg (by omega)
      omega
    rw [hk, zpow_neg, zpow_natCast] at heq
    have h2pow : ((2 : ℚ) ^ k) ≠ 0 := by positivity
    have h1 : (2 : ℚ) ^ k = 10 * (m : ℚ) := by
      field_simp at heq
      linarith
    have h2 : (2 : ℤ) ^ k = 10 * m := by exact_mod_cast h1
    have h5 : (5 : ℤ) ∣ 2 ^ k := ⟨2 * m, by linarith⟩
    have h5n : (5 : ℕ) ∣ 2 ^ k := by
      have h5z : ((5 : ℕ) : ℤ) ∣ (((2 ^ k : ℕ) : ℤ)) := by push_cast; exact h5
      exact_mod_cast h5z
    have h52 := Nat.Prime.dvd_of_dvd_pow (by norm_num : Nat.Prime 5) h5n
    norm_num at h52

/-- C2 counterexample: the claim that the price is carried exactly
from the store into the float64 Price field fails; the store decimal
0.10 is not a binary64 value, so no float64 conversion carries it
unchanged. -/
theorem C2_price_exact_counterexample : ¬ C2claim := by
  intro hc
  have hscan : Float64Scan (fun _ => (0 : ℚ)) := by
    intro q
    exact ⟨0, 0, by norm_num, by norm_num⟩
  have hinst := hc (fun _ => (0 : ℚ)) hscan
    ⟨some 1, some "Inn", some 1, "", some 10, some (1 / 10)⟩
    ⟨1, "Inn", 1, "", 10, 0⟩ rfl
  simp at hinst

/-- C2 amended: the price is carried as a binary64 floating point
value, not as the exact store decimal: every successful scan yields a
price in the float64 value set, the store decimal 0.10 is not in that
set, and consequently a hotel whose store price is 0.10 is never
carried with its exact price. -/
theorem C2_price_float64_amended :
    (∀ (f64 : ℚ → ℚ), Float64Scan f64 →
      ∀ (r : JoinedRow) (h : Hotel), scanHotel f64 r = some h → Float64Repr h.price) ∧
    ¬ Float64Repr (1 / 10 : ℚ) ∧
    (∀ (f64 : ℚ → ℚ), Float64Scan f64 →
      ∀ (r : JoinedRow) (h : Hotel), scanHotel f64 r = some h →
        r.price = some (1 / 10 : ℚ) → h.price ≠ 1 / 10) := by
  refine ⟨?_, not_float64Repr_tenth, ?_⟩
  · intro f64 hscan r h hs
    obtain ⟨-, -, p, hp, hhp⟩ := scanHotel_some hs
    rw [hhp]
    exact hscan p
  · intro f64 hscan r h hs hp10 hcontra
    obtain ⟨-, -, p, hp, hhp⟩ := scanHotel_some hs
    rw [hp] at hp10
    have hpeq : p = 1 / 10 := by
      exact Option.some.inj hp10
    subst hpeq
    rw [hhp] at hcontra
    have hrep := hscan (1 / 10)
    rw [hcontra] at hrep
    exact not_float64Repr_tenth hrep

/-- Witness for C2 amended, at the constant zero conversion (an
admissible float64 conversion) and a store row priced 0.10. -/
theorem C2_price_float64_amended_witness :
    Float64Scan (fun _ => (0 : ℚ)) ∧
    scanHotel (fun _ => (0 : ℚ)) ⟨some 1, some "Inn", some 1, "", some 10, some (1 / 10)⟩ =
      some ⟨1, "Inn", 1, "", 10, 0⟩ ∧
    (⟨some 1, some "Inn", some 1, "", some 10, some (1 / 10)⟩ : JoinedRow).price =
      some (1 / 10 : ℚ) ∧
    (⟨1, "Inn", 1, "", 10, 0⟩ : Hotel).price ≠ 1 / 10 := by
  have hscan : Float64Scan (fun _ => (0 : ℚ)) := by
    intro q
    exact ⟨0, 0, by norm_num, by norm_num⟩
  exact ⟨hscan, rfl, rfl,
    C2_price_float64_amended.2.2 (fun _ => (0 : ℚ)) hscan
      ⟨some 1, some "Inn", some 1, "", some 10, some (1 / 10)⟩
      ⟨1, "Inn", 1, "", 10, 0⟩ rfl rfl⟩

/-! ## C3: the filter predicate -/

/-- C3 counterexample: on a city with id 0, searching the id field for
the text 0, the claim keeps the record (its id coerces to the text 0,
which contains the query) while the code drops it, because the falsy
number 0 short circuits to the empty string before coercion. -/
theorem C3_filter_counterexample : ¬ C3claim := by
  intro hc
  have hne : jsTrim "0" ≠ "" := by decide
  have heq := hc (fun q => toString q.num) [⟨0, "A"⟩] [] ⟨"cities", "id", "0"⟩ hne
  exact absurd heq (by decide)

lemma orElseCoerce_eq_amended (numStr : ℚ → String) (v : JSVal) :
    orElseCoerce numStr v = specTextAmended numStr v := by
  cases v with
  | undefined => rfl
  | num q =>
    simp only [orElseCoerce, jsFalsy, jsString, specTextAmended]
    by_cases h : q = 0 <;> simp [h]
  | str s =>
    simp only [orElseCoerce, jsFalsy, jsString, specTextAmended]
    by_cases h : s = "" <;> simp [h]

/-- C3 amended: for every snapshot and parameter set with a non
whitespace query, the filter keeps exactly the records whose selected
field value, coerced to text with every falsy value (absent or null,
the number zero, the empty string) becoming the empty string, contains
the lower cased query as a case insensitive substring; the logical
hotel field city reads city_name. -/
theorem C3_filter_matches_amended_spec :
    ∀ (numStr : ℚ → String) (cities : List City) (hotels : List Hotel) (sp : SearchParams),
      jsTrim sp.query ≠ "" →
      filterData numStr cities hotels sp = specFilterAmended numStr cities hotels sp := by
  intro numStr cities hotels sp hq
  have hq' : ¬((jsTrim sp.query == "") = true) := by simpa using hq
  rw [filterData, specFilterAmended]
  rw [if_neg hq']
  by_cases ht : (sp.table == "cities") = true
  · rw [if_pos ht, if_pos ht]
    congr 1
    apply List.filter_congr
    intro c _
    rw [orElseCoerce_eq_amended]
  · rw [if_neg ht, if_neg ht]
    congr 1
    apply List.filter_congr
    intro h _
    rw [specHotelField]
    by_cases hf : (sp.field == "city") = true
    · rw [if_pos hf, if_pos hf, orElseCoerce_eq_amended]
    · rw [if_neg hf, if_neg hf, orElseCoerce_eq_amended]

/-- Witness for C3 amended: the query PAR matches the city Paris case
insensitively. -/
theorem C3_filter_matches_amended_spec_witness :
    jsTrim "PAR" ≠ "" ∧
    filterData (fun q => toString q.num) [⟨1, "Paris"⟩, ⟨2, "Lyon"⟩] []
        ⟨"cities", "name", "PAR"⟩ =
      specFilterAmended (fun q => toString q.num) [⟨1, "Paris"⟩, ⟨2, "Lyon"⟩] []
        ⟨"cities", "name", "PAR"⟩ :=
  ⟨by decide, C3_filter_matches_amended_spec (fun q => toString q.num)
    [⟨1, "Paris"⟩, ⟨2, "Lyon"⟩] [] ⟨"cities", "name", "PAR"⟩ (by decide)⟩
